import Mathlib

/-!
Verification of the Minecraft Server List Ping client in `minestatus.go`
(the `GetStatus`, `StatusReport` and `StatusRespond` functions) against its
natural-language specification.

Bytes are modelled as `Nat` values below 256; byte sequences as `List Nat`.
Machine integers (`uint64`, `uint16`) are modelled as `Nat` with explicit
reduction modulo `2 ^ 64` / `2 ^ 16` where the Go code converts.
-/

set_option autoImplicit false

namespace Minestatus

/-! Section: the VarInt codec -/

/--
Go's `binary.PutUvarint` from the standard library, called by `GetStatus`
(lines 64, 71, 77, 92, 103): emits 7 data bits per byte, low groups first,
with the high bit (0x80) set on every byte except the last.  The Go loop
runs at most 10 iterations for a `uint64` argument, so a fuel of 10 is
exact; `putUvarint` applies it to the argument reduced modulo `2 ^ 64`
(Go's `uint64` domain).
-/
def putUvarintFuel : Nat → Nat → List Nat
  | 0, _ => []
  | fuel + 1, x =>
    if x < 0x80 then [x]
    else (x % 0x80 + 0x80) :: putUvarintFuel fuel (x / 0x80)

def putUvarint (x : Nat) : List Nat :=
  putUvarintFuel 10 (x % 2 ^ 64)

/--
Modelled from the spec: `DecodeVarInt(stream) -> (value, bytesConsumed)`
is absent from the source (the code discards a fixed 5 bytes instead of
decoding the response framing).  Per §4.1: read bytes one at a time,
accumulate 7 bits per byte shifted into position, stop at the first byte
whose high bit is clear; fail (`MalformedVarInt`) if more than 10 bytes
are consumed without termination; fail if the stream ends first.
-/
def decodeUvarintFuel : Nat → List Nat → Nat → Nat → Option (Nat × Nat)
  | _, [], _, _ => none
  | 0, _ :: _, _, _ => none
  | fuel + 1, b :: rest, shift, consumed =>
    if b < 0x80 then some (b * 2 ^ shift, consumed + 1)
    else
      match decodeUvarintFuel fuel rest (shift + 7) (consumed + 1) with
      | some (v, n) => some ((b % 0x80) * 2 ^ shift + v, n)
      | none => none

def decodeUvarint (bs : List Nat) : Option (Nat × Nat) :=
  decodeUvarintFuel 10 bs 0 0

/--
The well-formedness the claim asserts of every encoding: nonempty, high
continuation bit set on every byte except the last, last byte's high bit
clear, and minimal (no trailing zero group unless the value is zero).
-/
def varintWellFormed (bs : List Nat) : Bool :=
  !bs.isEmpty
    && bs.dropLast.all (fun b => 0x80 ≤ b && b < 0x100)
    && bs.getLastD 0 < 0x80
    && (bs.length == 1 || bs.getLastD 0 != 0)

/-! Section: the write phase of `GetStatus`, as a byte stream -/

/--
Big-endian `uint16` as written by `binary.Write(conn, binary.BigEndian,
uint16(Config.MinecraftPort))` (line 87); the Go conversion `uint16(...)`
reduces modulo `2 ^ 16`.
-/
def u16be (port : Nat) : List Nat :=
  [port % 2 ^ 16 / 2 ^ 8, port % 2 ^ 8]

/--
The byte stream `GetStatus` writes to the connection, one `++` per
`binary.Write` call (lines 62–104, in source order): the hardcoded length
byte `0x0F`, VarInt 0 (packet id), VarInt 5 (protocol version),
VarInt (host length), the host bytes, the port as big-endian `uint16`,
VarInt 1 (next state), VarInt 1 again (line 98, the status-request length),
and VarInt 0 (the status-request packet id).  `host` is the UTF-8 byte
sequence of `Config.MinecraftHost`.
-/
def getStatusWrittenBytes (host : List Nat) (port : Nat) : List Nat :=
  [0x0F] ++ putUvarint 0 ++ putUvarint 5 ++ putUvarint host.length
    ++ host ++ u16be port ++ putUvarint 1 ++ putUvarint 1 ++ putUvarint 0

/--
The handshake payload as the claim describes it:
`VarInt(5) ++ VarInt(len host) ++ host ++ uint16be(port) ++ VarInt(1)`.
-/
def handshakePayload (host : List Nat) (port : Nat) : List Nat :=
  putUvarint 5 ++ putUvarint host.length ++ host ++ u16be port ++ putUvarint 1

/--
The handshake packet as the claim (spec §4.2) describes it: packet id 0
(VarInt-encoded) and payload, the whole prefixed by the VarInt encoding
of the length of (packetId ++ payload).  This follows the spec's words,
for comparison against `getStatusWrittenBytes`.
-/
def claimedHandshakePacket (host : List Nat) (port : Nat) : List Nat :=
  putUvarint ((putUvarint 0).length + (handshakePayload host port).length)
    ++ putUvarint 0 ++ handshakePayload host port

/-- The status-request packet as the claim (spec §4.2) describes it. -/
def claimedStatusRequestPacket : List Nat := [1, 0]

/-! Section: the write phase of `GetStatus`, error propagation.

`GetStatus` performs nine `binary.Write` calls (lines 62, 65, 72, 78, 82,
87, 93, 98, 104) followed by one `conn.Flush()` (line 109).  The oracle
`w k` gives the error result of the `k`-th write call (0-based) and
`_flushErr` the error result of the flush.
-/

inductive GoErr where
  | ioFail (msg : String)
  deriving DecidableEq

/--
The control flow of lines 62–109: the result of write 0 (line 62, the
hardcoded length byte) is assigned to `err` but overwritten by write 1
(line 65) before any check; writes 1 through 8 are each checked and an
error returned immediately; the `conn.Flush()` result (line 109) is
discarded and the function proceeds to the read phase (`Except.ok ()`).
-/
def writePhase (w : Nat → Option GoErr) (_flushErr : Option GoErr) :
    Except GoErr Unit :=
  let _err := w 0
  match w 1 with
  | some e => Except.error e
  | none =>
    match w 2 with
    | some e => Except.error e
    | none =>
      match w 3 with
      | some e => Except.error e
      | none =>
        match w 4 with
        | some e => Except.error e
        | none =>
          match w 5 with
          | some e => Except.error e
          | none =>
            match w 6 with
            | some e => Except.error e
            | none =>
              match w 7 with
              | some e => Except.error e
              | none =>
                match w 8 with
                | some e => Except.error e
                | none => Except.ok ()

/-! Section: the connection event trace of `GetStatus` -/

inductive NetEv where
  | write (bs : List Nat)
  | flush
  | readByte
  | jsonDecode
  deriving DecidableEq

def isWrite : NetEv → Bool
  | NetEv.write _ => true
  | _ => false

def isRead : NetEv → Bool
  | NetEv.readByte => true
  | NetEv.jsonDecode => true
  | _ => false

/--
The sequence of connection operations `GetStatus` performs on its
error-free path, in source order: nine buffered writes (lines 62–104),
the flush (line 109), five `ReadByte` calls (lines 115–120), and the
JSON decoder's read of the remaining stream (lines 122–123).
-/
def getStatusTrace (host : List Nat) (port : Nat) : List NetEv :=
  [NetEv.write [0x0F], NetEv.write (putUvarint 0), NetEv.write (putUvarint 5),
   NetEv.write (putUvarint host.length), NetEv.write host,
   NetEv.write (u16be port), NetEv.write (putUvarint 1),
   NetEv.write (putUvarint 1), NetEv.write (putUvarint 0),
   NetEv.flush,
   NetEv.readByte, NetEv.readByte, NetEv.readByte, NetEv.readByte,
   NetEv.readByte, NetEv.jsonDecode]

/-- The write events of `getStatusTrace` (lines 62–104). -/
def writeEvents (host : List Nat) (port : Nat) : List NetEv :=
  [NetEv.write [0x0F], NetEv.write (putUvarint 0), NetEv.write (putUvarint 5),
   NetEv.write (putUvarint host.length), NetEv.write host,
   NetEv.write (u16be port), NetEv.write (putUvarint 1),
   NetEv.write (putUvarint 1), NetEv.write (putUvarint 0)]

/-- The read events of `getStatusTrace` (lines 115–123). -/
def readEvents : List NetEv :=
  [NetEv.readByte, NetEv.readByte, NetEv.readByte, NetEv.readByte,
   NetEv.readByte, NetEv.jsonDecode]

/-! Section: the read phase of `GetStatus`, response framing -/

inductive ReadErr where
  | eof
  | protocolError
  deriving DecidableEq

/--
Lines 114–126 framing: the code discards exactly five bytes with
`conn.ReadByte()` (failing with `io.EOF` if the stream ends first) and
hands the entire remaining stream to `json.NewDecoder`.  No VarInt is
decoded on the read side.
-/
def readPhase (input : List Nat) : Except ReadErr (List Nat) :=
  if input.length < 5 then Except.error ReadErr.eof
  else Except.ok (input.drop 5)

/--
Modelled from the spec: §4.3 steps 3–5 are absent from the source (the
code discards a fixed 5 bytes instead).  Per the spec: decode the frame
length as a VarInt, failing with `ProtocolError` on malformed framing;
decode the packet-id VarInt; read exactly the remaining frame bytes
(frame length minus the bytes consumed for the packet id) as the JSON
payload.
-/
def specReadFrame (input : List Nat) : Except ReadErr (List Nat) :=
  match decodeUvarint input with
  | none => Except.error ReadErr.protocolError
  | some (frameLen, n) =>
    let rest := input.drop n
    match decodeUvarint rest with
    | none => Except.error ReadErr.protocolError
    | some (_packetId, m) =>
      if rest.length < frameLen then Except.error ReadErr.eof
      else Except.ok ((rest.drop m).take (frameLen - m))

/-! Section: the status decoder, lines 122–137 -/

/--
The JSON values `json.Decoder.Decode` can produce into
`map[string]interface{}` and `interface{}`: numbers arrive as `float64`
(modelled as `Int`; only integral counts occur in this protocol),
strings as `string`, objects as `map[string]interface{}`, arrays as
`[]interface{}`, booleans as `bool`, and `null` as a nil interface.
-/
inductive Json where
  | null
  | bool (b : Bool)
  | num (n : Int)
  | str (s : String)
  | arr (elems : List Json)
  | obj (fields : List (String × Json))

/--
Lookup in the decoded map: for a duplicated key, Go's JSON decoding
keeps the last binding, and a missing key yields the nil interface
(`none`).
-/
def jLookup : List (String × Json) → String → Option Json
  | [], _ => none
  | (k, v) :: rest, key =>
    match jLookup rest key with
    | some r => some r
    | none => if k = key then some v else none

/-- The type assertion `.(map[string]interface{})`: `none` is a panic. -/
def asObj : Option Json → Option (List (String × Json))
  | some (Json.obj fs) => some fs
  | _ => none

/-- The type assertion `.(string)`: `none` is a panic. -/
def asStr : Option Json → Option String
  | some (Json.str s) => some s
  | _ => none

/-- The type assertion `.(float64)`: `none` is a panic. -/
def asNum : Option Json → Option Int
  | some (Json.num n) => some n
  | _ => none

/--
The Go conversion `uint64(x)` applied to the (integral, in-range)
`float64` field values this protocol carries: reduction modulo `2 ^ 64`.
-/
def numToUint64 (n : Int) : Nat := (n % (2 ^ 64 : Int)).toNat

/-- The `MinecraftStatus` struct (lines 40–46); integers are `uint64`. -/
structure MinecraftStatus where
  ProtocolVersion : Nat
  ServerVersion : String
  Motd : String
  Players : Nat
  MaxPlayers : Nat
  deriving DecidableEq

/--
The three ways the decode step (lines 122–137) can end: a constructed
`MinecraftStatus`; an error value returned by `dec.Decode` (line 123);
or a run-time panic from a failed type assertion (lines 129–136),
identified here by the field whose assertion failed.
-/
inductive DecodeOutcome where
  | ok (s : MinecraftStatus)
  | err (msg : String)
  | fault (site : String)
  deriving DecidableEq

/--
Lines 122–137 on an already-parsed JSON value.  A non-object top level
makes `dec.Decode` return an error (`err`), except JSON `null`, which
Go decodes into a map target as a no-op, so the map stays empty and the
first assertion faults.  The assertions run in Go evaluation order:
`version` (line 129), `players` (line 130), then the struct-literal
fields `version.protocol`, `version.name`, `description`,
`players.online`, `players.max` (lines 132–136); the first failure
panics.
-/
def decodeStatus (j : Json) : DecodeOutcome :=
  match j with
  | Json.null => DecodeOutcome.fault "version"
  | Json.obj info =>
    match asObj (jLookup info "version") with
    | none => DecodeOutcome.fault "version"
    | some version =>
      match asObj (jLookup info "players") with
      | none => DecodeOutcome.fault "players"
      | some players =>
        match asNum (jLookup version "protocol") with
        | none => DecodeOutcome.fault "version.protocol"
        | some protocol =>
          match asStr (jLookup version "name") with
          | none => DecodeOutcome.fault "version.name"
          | some name =>
            match asStr (jLookup info "description") with
            | none => DecodeOutcome.fault "description"
            | some description =>
              match asNum (jLookup players "online") with
              | none => DecodeOutcome.fault "players.online"
              | some online =>
                match asNum (jLookup players "max") with
                | none => DecodeOutcome.fault "players.max"
                | some mx =>
                  DecodeOutcome.ok
                    ⟨numToUint64 protocol, name, description,
                     numToUint64 online, numToUint64 mx⟩
  | _ => DecodeOutcome.err "json: cannot unmarshal into map"

/-! Section: the command dispatcher, lines 141–164 -/

/-- The `SlackMessage` struct (lines 27–34). -/
structure SlackMessage where
  ChannelName : String
  UserName : String
  UserId : String
  Text : String
  Trigger : String
  Timestamp : String

/-- Go's `strings.ToLower`, applied character-wise. -/
def goToLower (s : String) : String := ⟨s.data.map Char.toLower⟩

/--
The function `StatusReport` (lines 141–149), with the result of its `GetStatus` call
supplied as a parameter: on error it returns the empty text and the
error; on success the formatted summary.
-/
def statusReport (fetchResult : Except GoErr MinecraftStatus) :
    String × Option GoErr :=
  match fetchResult with
  | Except.error e => ("", some e)
  | Except.ok stat =>
    ("*" ++ stat.Motd ++ "* has *" ++ toString stat.Players ++ "*/"
      ++ toString stat.MaxPlayers ++ " players on.", none)

/--
The function `StatusRespond` (lines 151–164), with the result `GetStatus` would
produce supplied as a parameter.  The third component records whether
`StatusReport` (and hence `GetStatus`, which opens the connection) was
invoked: `true` only in the `"status"` branch of the switch.
-/
def statusRespond (msg : SlackMessage)
    (fetchResult : Except GoErr MinecraftStatus) :
    String × Option GoErr × Bool :=
  let step :=
    if goToLower msg.Text = "status" then
      let r := statusReport fetchResult
      (r.1, r.2, true)
    else
      ("The term “" ++ msg.Text ++ "” is not a known command.",
       (none : Option GoErr), false)
  if step.2.1 = none then
    (msg.UserName ++ ": " ++ step.1, step.2.1, step.2.2)
  else
    step

/-! Section: concrete payloads used by the spec's test properties -/

/--
The payload of spec §8's decode-success property:
`{"version":{"protocol":5,"name":"1.7.10"},"description":"A Minecraft
Server","players":{"online":3,"max":20}}`.
-/
def samplePayload : Json :=
  Json.obj
    [("version", Json.obj [("protocol", Json.num 5), ("name", Json.str "1.7.10")]),
     ("description", Json.str "A Minecraft Server"),
     ("players", Json.obj [("online", Json.num 3), ("max", Json.num 20)])]

/-- The same payload with `players.max` removed (spec §8's schema-failure input). -/
def missingMaxPayload : Json :=
  Json.obj
    [("version", Json.obj [("protocol", Json.num 5), ("name", Json.str "1.7.10")]),
     ("description", Json.str "A Minecraft Server"),
     ("players", Json.obj [("online", Json.num 3)])]

/-! Section: theorems for the claims -/

/--
C1, counterexample: for host "ab" (bytes [97, 98]) and port 0, the byte
stream `GetStatus` writes is not the claimed handshake packet (VarInt
length prefix, here `[8]`) followed by the status-request packet: the
code writes the fixed length byte `0x0F` (15) instead.
-/
theorem c1_counterexample :
    getStatusWrittenBytes [97, 98] 0 ≠
      claimedHandshakePacket [97, 98] 0 ++ claimedStatusRequestPacket := by
  decide

/--
C1, amended: for every host and port, the handshake packet written to
the connection is the fixed single byte `0x0F` — not the VarInt-encoded
length of (packetId ++ payload) — followed by VarInt packet id 0 and the
claimed payload `VarInt(5) ++ VarInt(len host) ++ host ++
uint16be(port) ++ VarInt(1)`, the whole followed by the status-request
packet; when packetId ++ payload happens to have length 15 (as for a
9-byte host such as "localhost"), the fixed byte coincides with the
claimed VarInt length prefix and the claim's format holds exactly.
-/
theorem c1_amended (host : List Nat) (port : Nat) :
    getStatusWrittenBytes host port =
      ([0x0F] ++ putUvarint 0 ++ handshakePayload host port)
        ++ claimedStatusRequestPacket
    ∧ ((putUvarint 0).length + (handshakePayload host port).length = 15 →
        getStatusWrittenBytes host port =
          claimedHandshakePacket host port ++ claimedStatusRequestPacket) := by
  have h0 : putUvarint 0 = [0] := rfl
  have h1 : putUvarint 1 = [1] := rfl
  have h15 : putUvarint 15 = [15] := rfl
  constructor
  · simp [getStatusWrittenBytes, handshakePayload, claimedStatusRequestPacket,
      h0, h1, List.append_assoc]
  · intro h
    simp only [claimedHandshakePacket]
    rw [h, h15]
    simp [getStatusWrittenBytes, handshakePayload, claimedStatusRequestPacket,
      h0, h1, List.append_assoc]

/--
C1, witness for the amended claim at host "localhost" (nine bytes) and
port 25565, where the fixed byte and the VarInt length prefix coincide.
-/
theorem c1_amended_witness :
    getStatusWrittenBytes [108, 111, 99, 97, 108, 104, 111, 115, 116] 25565 =
      claimedHandshakePacket [108, 111, 99, 97, 108, 104, 111, 115, 116] 25565
        ++ claimedStatusRequestPacket :=
  (c1_amended [108, 111, 99, 97, 108, 104, 111, 115, 116] 25565).2 (by decide)

/--
C2: on the payload missing `players.max`, the decode step does not
return a `SchemaError` value — the failed type assertion
`players["max"].(float64)` (line 136) raises a run-time fault (panic)
at that field, contradicting the claim that every missing required
field yields a returned typed error and no input causes a runtime
fault.
-/
theorem c2_missing_max_faults :
    decodeStatus missingMaxPayload = DecodeOutcome.fault "players.max" := rfl

/--
C3: the code never decodes the response framing; it discards a fixed 5
bytes.  On the well-formed response frame `[3, 0, 123, 125]` (frame
length 3, packet id 0, payload "\x7b\x7d") the spec's reader yields the
JSON payload, but the code hits end-of-stream on its fifth `ReadByte`
and fails — refuting the claim that the framing is read as VarInts for
every well-formed frame regardless of VarInt widths.
-/
theorem c3_fixed_discard_eval :
    readPhase [3, 0, 123, 125] = Except.error ReadErr.eof
    ∧ specReadFrame [3, 0, 123, 125] = Except.ok [123, 125] := ⟨rfl, rfl⟩

/--
C4, counterexample: when every `binary.Write` succeeds but the final
`conn.Flush()` — the only operation that commits the buffered packet
bytes to the socket — fails, `GetStatus` does not return the error: the
flush's result is discarded (line 109) and the exchange proceeds to the
read phase.
-/
theorem c4_counterexample :
    writePhase (fun _ => none) (some (GoErr.ioFail "connection reset")) =
      Except.ok () := rfl

/--
C4, amended: the write phase succeeds exactly when the eight checked
`binary.Write` calls (calls 1–8; the packet-id byte through the
status-request id) all succeed — so the error of the first write (the
hardcoded length byte, overwritten unchecked at line 65) and of the
final flush (discarded at line 109) never affect the result — and every
error the write phase returns is the error of one of the checked
writes.
-/
theorem c4_amended :
    (∀ (w : Nat → Option GoErr) (f : Option GoErr),
      writePhase w f = Except.ok () ↔ ∀ i, 1 ≤ i → i ≤ 8 → w i = none)
    ∧ (∀ (w : Nat → Option GoErr) (f : Option GoErr) (e : GoErr),
        writePhase w f = Except.error e →
          ∃ j, 1 ≤ j ∧ j ≤ 8 ∧ w j = some e) := by
  constructor
  · intro w f
    constructor
    · intro h i h1 h8
      simp only [writePhase] at h
      split at h
      · cases h
      · split at h
        · cases h
        · split at h
          · cases h
          · split at h
            · cases h
            · split at h
              · cases h
              · split at h
                · cases h
                · split at h
                  · cases h
                  · split at h
                    · cases h
                    · interval_cases i <;> assumption
    · intro h
      simp only [writePhase, h 1 (by norm_num) (by norm_num),
        h 2 (by norm_num) (by norm_num), h 3 (by norm_num) (by norm_num),
        h 4 (by norm_num) (by norm_num), h 5 (by norm_num) (by norm_num),
        h 6 (by norm_num) (by norm_num), h 7 (by norm_num) (by norm_num),
        h 8 (by norm_num) (by norm_num)]
  · intro w f e h
    simp only [writePhase] at h
    split at h
    · cases h; rename_i h1; exact ⟨1, by omega, by omega, h1⟩
    · split at h
      · cases h; rename_i h2; exact ⟨2, by omega, by omega, h2⟩
      · split at h
        · cases h; rename_i h3; exact ⟨3, by omega, by omega, h3⟩
        · split at h
          · cases h; rename_i h4; exact ⟨4, by omega, by omega, h4⟩
          · split at h
            · cases h; rename_i h5; exact ⟨5, by omega, by omega, h5⟩
            · split at h
              · cases h; rename_i h6; exact ⟨6, by omega, by omega, h6⟩
              · split at h
                · cases h; rename_i h7; exact ⟨7, by omega, by omega, h7⟩
                · split at h
                  · cases h; rename_i h8; exact ⟨8, by omega, by omega, h8⟩
                  · cases h

/--
C4, witness for the amended claim: with every checked write succeeding
(and any flush result), the write phase reaches the read phase; and a
failure of checked write 3 is returned.
-/
theorem c4_amended_witness :
    writePhase (fun _ => none) none = Except.ok () :=
  (c4_amended.1 (fun _ => none) none).2 (fun _ _ _ => rfl)

/--
C5: a `MinecraftStatus` record is constructed only when the payload is
a JSON object carrying all five required fields with the expected
types — `version.protocol` (number), `version.name` (string),
`description` (string), `players.online` (number), `players.max`
(number) — and the record constructed carries exactly those five
values; every other payload fails without producing a record.
-/
theorem c5_full_fields :
    ∀ (j : Json) (s : MinecraftStatus), decodeStatus j = DecodeOutcome.ok s →
      ∃ info version players protocol name description online mx,
        j = Json.obj info
        ∧ asObj (jLookup info "version") = some version
        ∧ asObj (jLookup info "players") = some players
        ∧ asNum (jLookup version "protocol") = some protocol
        ∧ asStr (jLookup version "name") = some name
        ∧ asStr (jLookup info "description") = some description
        ∧ asNum (jLookup players "online") = some online
        ∧ asNum (jLookup players "max") = some mx
        ∧ s = ⟨numToUint64 protocol, name, description,
               numToUint64 online, numToUint64 mx⟩ := by
  intro j s h
  cases j with
  | null => cases h
  | bool b => cases h
  | num n => cases h
  | str t => cases h
  | arr es => cases h
  | obj info =>
    simp only [decodeStatus] at h
    split at h
    · cases h
    · rename_i version hversion
      split at h
      · cases h
      · rename_i players hplayers
        split at h
        · cases h
        · rename_i protocol hprotocol
          split at h
          · cases h
          · rename_i name hname
            split at h
            · cases h
            · rename_i description hdescription
              split at h
              · cases h
              · rename_i online honline
                split at h
                · cases h
                · rename_i mx hmx
                  cases h
                  exact ⟨info, version, players, protocol, name, description,
                    online, mx, rfl, hversion, hplayers, hprotocol, hname,
                    hdescription, honline, hmx, rfl⟩

/-- C5, witness at the spec's sample payload. -/
theorem c5_witness :
    ∃ info version players protocol name description online mx,
      samplePayload = Json.obj info
      ∧ asObj (jLookup info "version") = some version
      ∧ asObj (jLookup info "players") = some players
      ∧ asNum (jLookup version "protocol") = some protocol
      ∧ asStr (jLookup version "name") = some name
      ∧ asStr (jLookup info "description") = some description
      ∧ asNum (jLookup players "online") = some online
      ∧ asNum (jLookup players "max") = some mx
      ∧ (⟨5, "1.7.10", "A Minecraft Server", 3, 20⟩ : MinecraftStatus) =
          ⟨numToUint64 protocol, name, description,
           numToUint64 online, numToUint64 mx⟩ :=
  c5_full_fields samplePayload ⟨5, "1.7.10", "A Minecraft Server", 3, 20⟩ rfl

/--
C6: the status-request packet written after the handshake is exactly
the two bytes length = 1 then packetId = 0, and in the connection event
trace of `GetStatus` the flush of the buffered packet bytes strictly
precedes every read: the trace is the nine write events, then the
flush, then only read events.
-/
theorem c6_status_request_and_flush_order (host : List Nat) (port : Nat) :
    putUvarint 1 ++ putUvarint 0 = claimedStatusRequestPacket
    ∧ getStatusTrace host port =
        writeEvents host port ++ NetEv.flush :: readEvents
    ∧ (writeEvents host port).all isWrite = true
    ∧ readEvents.all isRead = true :=
  ⟨rfl, rfl, rfl, rfl⟩

/--
C7: for every v in {0, 1, 127, 128, 300, 2^32 - 1}, decoding the VarInt
encoding of v yields back v together with the number of bytes the
encoder produced, and the encoding is the minimal 7-bits-per-byte form
with the continuation bit set on every byte except the last.
-/
theorem c7_varint_roundtrip :
    ([0, 1, 127, 128, 300, 2 ^ 32 - 1] : List Nat).all (fun v =>
      decide (decodeUvarint (putUvarint v) = some (v, (putUvarint v).length))
        && varintWellFormed (putUvarint v)) = true := by
  decide

/--
C8: on the spec's sample payload the decode step succeeds with
protocol 5, server version "1.7.10", MOTD "A Minecraft Server", 3
players online, 20 max.
-/
theorem c8_decode_success :
    decodeStatus samplePayload =
      DecodeOutcome.ok ⟨5, "1.7.10", "A Minecraft Server", 3, 20⟩ := rfl

/--
C10: for every incoming message whose text, lowercased, is not exactly
"status", the dispatcher replies `<UserName>: The term “<text>” is not
a known command.` with no error, and `StatusReport` — and with it
`GetStatus` and its connection — is never invoked (third component
`false`).
-/
theorem c10_unknown_command :
    ∀ (msg : SlackMessage) (fetchResult : Except GoErr MinecraftStatus),
      goToLower msg.Text ≠ "status" →
      statusRespond msg fetchResult =
        (msg.UserName ++ ": " ++
          ("The term “" ++ msg.Text ++ "” is not a known command."),
         none, false) := by
  intro msg r h
  simp [statusRespond, h]

/-- C10, witness at the message text "help" from user "alice". -/
theorem c10_witness :
    statusRespond ⟨"general", "alice", "U1", "help", "mc", "0"⟩
        (Except.ok ⟨5, "1.7.10", "A Minecraft Server", 3, 20⟩) =
      ("alice" ++ ": " ++
        ("The term “" ++ "help" ++ "” is not a known command."),
       none, false) :=
  c10_unknown_command ⟨"general", "alice", "U1", "help", "mc", "0"⟩
    (Except.ok ⟨5, "1.7.10", "A Minecraft Server", 3, 20⟩) (by decide)

end Minestatus
